import Mathlib

/-!
Verification of the pagination / Link-header component of the web3.storage
account API (`src/unnamed/part_000`).

The embedding models, faithfully to the JavaScript source:
  * `PageRequest` — the parsed page request object (cursor or offset mode),
  * `getLinkHeaderRels` / `getLinkHeader` — the Link-header builder
    (source lines 325–364),
  * `userUploadsGet` — the uploads listing handler (source lines 271–314),
  * `userPinsGet` — the pins listing handler (source lines 432–498).

JavaScript property presence (`'before' in pageRequest`) is modelled with
`Option` fields; a thrown JS exception is modelled with `Except`.
-/

namespace Web3Storage

/-- An item of a returned page.  Only its `created` timestamp is relevant to
the Link-header builder (source: `args.items` of `getLinkHeader`, typed
`Array of objects exposing created`). -/
structure Item where
  created : String
deriving Repr, DecidableEq

/-- Modelled from the spec: the page-request parser `pagination`
(`utils/pagination.js`) is not under `src/`; per spec §3 the `PageRequest`
invariant is that `size` is always present and positive, while exactly one of
the `before` (cursor mode) / `page` (offset mode) discriminants is set by the
parser.  `size` is therefore a plain field, `page` and `before` are `Option`
fields whose `isSome` models the JavaScript property-presence test
(`'page' in pageRequest`, `'before' in pageRequest`); positivity of `size` is
carried as a hypothesis where a theorem needs it. -/
structure PageRequest where
  size : Nat
  page : Option Nat := none
  before : Option String := none
deriving Repr, DecidableEq

/-- A single Link relation before serialization: the base URL, the query
parameters in insertion order (as handed to `new URLSearchParams`), and the
relation name. -/
structure Rel where
  url : String
  query : List (String × String)
  rel : String
deriving Repr, DecidableEq

/-- Upper-case hexadecimal digit, as produced by percent-encoding. -/
def hexDigitChar (n : Nat) : Char :=
  if n < 10 then Char.ofNat (48 + n) else Char.ofNat (55 + n)

/-- Encoding of one UTF-8 byte under the `application/x-www-form-urlencoded`
serializer used by `URLSearchParams.toString`: ASCII alphanumerics and
`*`, `-`, `.`, `_` are kept, space becomes `+`, everything else is
percent-encoded. -/
def encodeByte (b : Nat) : String :=
  if b = 0x20 then "+"
  else if b = 0x2A ∨ b = 0x2D ∨ b = 0x2E ∨ (0x30 ≤ b ∧ b ≤ 0x39) ∨
      (0x41 ≤ b ∧ b ≤ 0x5A) ∨ b = 0x5F ∨ (0x61 ≤ b ∧ b ≤ 0x7A) then
    String.singleton (Char.ofNat b)
  else
    "%" ++ String.singleton (hexDigitChar (b / 16)) ++
      String.singleton (hexDigitChar (b % 16))

/-- UTF-8 encoding of one character, as the list of its byte values. -/
def charUtf8Bytes (c : Char) : List Nat :=
  let n := c.toNat
  if n < 0x80 then [n]
  else if n < 0x800 then [0xC0 + n / 64, 0x80 + n % 64]
  else if n < 0x10000 then [0xE0 + n / 4096, 0x80 + (n / 64) % 64, 0x80 + n % 64]
  else [0xF0 + n / 262144, 0x80 + (n / 4096) % 64, 0x80 + (n / 64) % 64, 0x80 + n % 64]

/-- `application/x-www-form-urlencoded` encoding of a string (over its UTF-8
bytes). -/
def urlencodeStr (s : String) : String :=
  String.join ((s.data.flatMap charUtf8Bytes).map encodeByte)

/-- Serialization of a `URLSearchParams` object built from the given key/value
pairs (`nextParams`, `lastParams`, … in the source are interpolated into the
relation strings, which invokes this serializer). -/
def urlSearchParamsString (ps : List (String × String)) : String :=
  String.intercalate "&" (ps.map fun p => urlencodeStr p.1 ++ "=" ++ urlencodeStr p.2)

/-- Rendering of one relation, as pushed on `rels` in the source:
the template `<URL?PARAMS>; rel="NAME"`. -/
def renderRel (r : Rel) : String :=
  "<" ++ r.url ++ "?" ++ urlSearchParamsString r.query ++ ">; rel=\"" ++ r.rel ++ "\""

/-- The exceptions `getLinkHeader` can throw: the explicit
`new Error('unknown page request type')` of its final `else` branch, and the
implicit `TypeError` of reading `.created` off `undefined` when
`items[items.length - 1]` does not exist (only reachable with `size = 0` and an
empty `items`). -/
inductive JsError where
  | unknownPageRequestType
  | typeError
deriving Repr, DecidableEq

/-- The Link relations computed by `getLinkHeader` (source lines 325–361),
before joining.  Mirrors the source: a cursor request (`'before' in
pageRequest`) yields a single `next` relation exactly when the page came back
full (`items.length === size`), with the oldest returned item's `created` as
the new cursor; an offset request (`'page' in pageRequest`) yields
`next` (when `page < pages`), `last`, `first`, `previous` (when `page > 1`),
pushed in that order, where `pages = Math.ceil(count / size)` — written here
as `(count + size - 1) / size`, equal to the ceiling for the positive `size`
the parser guarantees (spec §3); any other request throws. -/
def getLinkHeaderRels (url : String) (pageRequest : PageRequest)
    (items : List Item) (count : Nat) : Except JsError (List Rel) :=
  match pageRequest.before with
  | some _ =>
    let size := pageRequest.size
    if items.length = size then
      match items.getLast? with
      | some oldest =>
        .ok [{ url := url,
               query := [("size", toString size), ("before", oldest.created)],
               rel := "next" }]
      | none => .error .typeError
    else
      .ok []
  | none =>
    match pageRequest.page with
    | some page =>
      let size := pageRequest.size
      let pages := (count + size - 1) / size
      let next : List Rel :=
        if page < pages then
          [{ url := url,
             query := [("size", toString size), ("page", toString (page + 1))],
             rel := "next" }]
        else []
      let last : List Rel :=
        [{ url := url,
           query := [("size", toString size), ("page", toString pages)],
           rel := "last" }]
      let first : List Rel :=
        [{ url := url,
           query := [("size", toString size), ("page", toString 1)],
           rel := "first" }]
      let previous : List Rel :=
        if 1 < page then
          [{ url := url,
             query := [("size", toString size), ("page", toString (page - 1))],
             rel := "previous" }]
        else []
      .ok (next ++ last ++ first ++ previous)
    | none => .error .unknownPageRequestType

/-- `getLinkHeader` (source lines 325–364): renders each relation and joins
them with a comma and a space (`rels.join(', ')`). -/
def getLinkHeader (url : String) (pageRequest : PageRequest)
    (items : List Item) (count : Nat) : Except JsError String :=
  (getLinkHeaderRels url pageRequest items count).map
    fun rels => String.intercalate ", " (rels.map renderRel)

/-- An error raised by the data layer (`env.db.listUploads`,
`env.db.listPsaPinRequests`); the handlers inspect only its `code`. -/
structure DbError where
  code : String
deriving Repr, DecidableEq

/-- The value returned by `env.db.listUploads`.  `count` is optional: per spec
§6 the data layer "may omit `count`" in cursor mode. -/
structure ListUploadsResult where
  uploads : List Item
  count : Option Nat
deriving Repr, DecidableEq

/-- The value returned by `env.db.listPsaPinRequests`: page items plus total
count. -/
structure ListPinsResult where
  results : List Item
  count : Nat
deriving Repr, DecidableEq

/-- The errors a listing handler can raise: the dedicated
`RangeNotSatisfiableError` of `errors.js` (per spec §6 a distinct
HTTP 416-equivalent condition), a data-layer error re-raised unchanged, or an
exception propagating out of `getLinkHeader`. -/
inductive HandlerError where
  | rangeNotSatisfiable
  | dbError (e : DbError)
  | jsError (e : JsError)
deriving Repr, DecidableEq

/-- Modelled from the spec: `JSONResponse` (`utils/json-response.js`) is not
under `src/`.  Per spec §4.3 the response carries the serialized items as the
body and the `Count`, `Size`, `Page` and `Link` headers, where a header whose
value was not computed is omitted — in particular `Count` is "omitted in pure
cursor mode if count is not computed".  An `Option` field being `none` models
the header's absence from the response. -/
structure UploadsResponse where
  body : List Item
  countHeader : Option Nat
  sizeHeader : Option Nat
  pageHeader : Option Nat
  linkHeader : Option String
deriving Repr, DecidableEq

/-- The response of `userPinsGet`: body (count plus results) and the same
header set as `UploadsResponse`. -/
structure PinsResponse where
  bodyCount : Nat
  bodyResults : List Item
  countHeader : Nat
  sizeHeader : Option Nat
  pageHeader : Option Nat
  linkHeader : Option String
deriving Repr, DecidableEq

/-- `userUploadsGet` (source lines 271–314), from the data-layer call on: the
outcome of `env.db.listUploads` is an input (`dbResult`).  A data-layer error
with code `RANGE_NOT_SATISFIABLE_ERROR_DB` becomes `RangeNotSatisfiableError`;
any other error is re-raised unchanged.  On success the handler sets the
`Count` header from `data.count`, the `Size` header (always, since the parser
always sets `size`, spec §3), the `Page` header when `page` is present, builds
the Link header, and attaches it only when the built string is truthy
(non-empty). -/
def userUploadsGet (urlPathname : String) (pageRequest : PageRequest)
    (dbResult : Except DbError ListUploadsResult) :
    Except HandlerError UploadsResponse :=
  match dbResult with
  | .error err =>
    if err.code = "RANGE_NOT_SATISFIABLE_ERROR_DB" then
      .error .rangeNotSatisfiable
    else
      .error (.dbError err)
  | .ok data =>
    -- `data.count` is only passed through to `getLinkHeader`, whose cursor
    -- branch never reads it; the offset branch is only reachable when the
    -- data layer computed a count, so the default never influences a result.
    match getLinkHeader urlPathname pageRequest data.uploads (data.count.getD 0) with
    | .error e => .error (.jsError e)
    | .ok link =>
      .ok { body := data.uploads
            countHeader := data.count
            sizeHeader := some pageRequest.size
            pageHeader := pageRequest.page
            linkHeader := if link ≠ "" then some link else none }

/-- `userPinsGet` (source lines 432–498), from the data-layer call on: the
outcome of `env.db.listPsaPinRequests` is an input (`dbResult`); the search
parameter validation preceding it (`utils/psa.js`, not under `src/`) is out of
scope of the claims.  The error translation is identical to `userUploadsGet`.
`toPinStatusResponse` (`pins.js`, not under `src/`) is kept as the identity on
items since no claim depends on the body mapping. -/
def userPinsGet (urlPathname : String) (pageRequest : PageRequest)
    (dbResult : Except DbError ListPinsResult) :
    Except HandlerError PinsResponse :=
  match dbResult with
  | .error err =>
    if err.code = "RANGE_NOT_SATISFIABLE_ERROR_DB" then
      .error .rangeNotSatisfiable
    else
      .error (.dbError err)
  | .ok pinRequests =>
    match getLinkHeader urlPathname pageRequest pinRequests.results pinRequests.count with
    | .error e => .error (.jsError e)
    | .ok link =>
      .ok { bodyCount := pinRequests.count
            bodyResults := pinRequests.results
            countHeader := pinRequests.count
            sizeHeader := some pageRequest.size
            pageHeader := pageRequest.page
            linkHeader := if link ≠ "" then some link else none }

/-- `rels` contains a relation named `name`. -/
def hasRel (rels : List Rel) (name : String) : Prop :=
  ∃ r ∈ rels, r.rel = name

instance (rels : List Rel) (name : String) : Decidable (hasRel rels name) := by
  unfold hasRel; infer_instance

/-- Number of pages computed by the offset branch:
`Math.ceil(count / size)` for the positive sizes the parser guarantees. -/
def offsetPages (count size : Nat) : Nat :=
  (count + size - 1) / size

/-- The `next` relation of the offset branch. -/
def offsetNextRel (url : String) (size page : Nat) : Rel :=
  { url := url, query := [("size", toString size), ("page", toString (page + 1))], rel := "next" }

/-- The `last` relation of the offset branch. -/
def offsetLastRel (url : String) (size pages : Nat) : Rel :=
  { url := url, query := [("size", toString size), ("page", toString pages)], rel := "last" }

/-- The `first` relation of the offset branch. -/
def offsetFirstRel (url : String) (size : Nat) : Rel :=
  { url := url, query := [("size", toString size), ("page", toString 1)], rel := "first" }

/-- The `previous` relation of the offset branch. -/
def offsetPrevRel (url : String) (size page : Nat) : Rel :=
  { url := url, query := [("size", toString size), ("page", toString (page - 1))], rel := "previous" }

/-- Normal form of the offset branch of `getLinkHeaderRels`. -/
lemma getLinkHeaderRels_offset (url : String) (size page : Nat) (items : List Item)
    (count : Nat) :
    getLinkHeaderRels url { size := size, page := some page, before := none } items count =
      .ok ((if page < offsetPages count size then [offsetNextRel url size page] else []) ++
        [offsetLastRel url size (offsetPages count size), offsetFirstRel url size] ++
        (if 1 < page then [offsetPrevRel url size page] else [])) := by
  simp [getLinkHeaderRels, offsetPages, offsetNextRel, offsetLastRel, offsetFirstRel,
    offsetPrevRel]

/-- Normal form of the cursor branch of `getLinkHeaderRels`. -/
lemma getLinkHeaderRels_cursor (url before : String) (size : Nat) (pg : Option Nat)
    (items : List Item) (count : Nat) :
    getLinkHeaderRels url { size := size, page := pg, before := some before } items count =
      (if items.length = size then
        match items.getLast? with
        | some oldest =>
          .ok [{ url := url,
                 query := [("size", toString size), ("before", oldest.created)],
                 rel := "next" }]
        | none => .error .typeError
      else .ok []) := by
  simp only [getLinkHeaderRels]

/-- `offsetPages` is ceiling division: it is the least `m` with
`count ≤ m * size`. -/
lemma offsetPages_le_iff (count size m : Nat) (hsize : 0 < size) :
    offsetPages count size ≤ m ↔ count ≤ m * size := by
  unfold offsetPages
  rw [← Nat.lt_succ_iff, Nat.div_lt_iff_lt_mul hsize, Nat.succ_mul]
  have h2 : 0 ≤ m * size := Nat.zero_le _
  generalize m * size = X at *
  omega

/-- `offsetPages` agrees with the rational ceiling of `count / size`. -/
lemma offsetPages_eq_ceil (count size : Nat) (hsize : 0 < size) :
    (offsetPages count size : ℤ) = ⌈(count : ℚ) / (size : ℚ)⌉ := by
  have hsq : (0 : ℚ) < (size : ℚ) := by exact_mod_cast hsize
  symm
  rw [Int.ceil_eq_iff]
  refine ⟨?_, ?_⟩
  · rcases Nat.eq_zero_or_pos (offsetPages count size) with h0 | hpos
    · rw [h0]
      have hnn : (0 : ℚ) ≤ (count : ℚ) / (size : ℚ) :=
        div_nonneg (Nat.cast_nonneg _) hsq.le
      push_cast
      linarith
    · have hlt : (offsetPages count size - 1) * size < count := by
        by_contra hcon
        push_neg at hcon
        have := (offsetPages_le_iff count size (offsetPages count size - 1) hsize).mpr hcon
        omega
      rw [lt_div_iff₀ hsq]
      have hc : ((offsetPages count size - 1 : Nat) : ℚ) * (size : ℚ) < (count : ℚ) := by
        exact_mod_cast hlt
      have heq : ((offsetPages count size - 1 : Nat) : ℚ) = ((offsetPages count size : Nat) : ℚ) - 1 := by
        have h1 : (1 : ℕ) ≤ offsetPages count size := hpos
        push_cast [Nat.cast_sub h1]
        ring
      rw [heq] at hc
      push_cast
      linarith
  · rw [div_le_iff₀ hsq]
    have := (offsetPages_le_iff count size (offsetPages count size) hsize).mp le_rfl
    push_cast
    exact_mod_cast this

/-- `hasRel` restated through the list of relation names. -/
lemma hasRel_iff (rels : List Rel) (name : String) :
    hasRel rels name ↔ name ∈ rels.map Rel.rel := by
  simp [hasRel]

/-- Every relation produced by the offset branch is one of the four
`next`/`last`/`first`/`previous` relations, with the guards under which the
conditional ones are pushed. -/
lemma offset_mem (url : String) (size page count : Nat) (items : List Item)
    (rels : List Rel)
    (h : getLinkHeaderRels url { size := size, page := some page, before := none }
      items count = .ok rels)
    (r : Rel) (hr : r ∈ rels) :
    (page < offsetPages count size ∧ r = offsetNextRel url size page) ∨
    r = offsetLastRel url size (offsetPages count size) ∨
    r = offsetFirstRel url size ∨
    (1 < page ∧ r = offsetPrevRel url size page) := by
  rw [getLinkHeaderRels_offset] at h
  injection h with h
  subst h
  by_cases hp : page < offsetPages count size <;> by_cases hq : 1 < page <;>
    simp [hp, hq] at hr <;> tauto

/-- Cursor branch, page not full: no relation at all. -/
lemma cursor_rels_short (url before : String) (size : Nat) (pg : Option Nat)
    (items : List Item) (count : Nat) (hne : items.length ≠ size) :
    getLinkHeaderRels url { size := size, page := pg, before := some before } items count =
      .ok [] := by
  rw [getLinkHeaderRels_cursor]
  simp [hne]

/-- Cursor branch, full page: a single `next` relation keyed on the last
(oldest) returned item. -/
lemma cursor_rels_full (url before : String) (size : Nat) (pg : Option Nat)
    (items : List Item) (count : Nat) (oldest : Item)
    (hlen : items.length = size) (hlast : items.getLast? = some oldest) :
    getLinkHeaderRels url { size := size, page := pg, before := some before } items count =
      .ok [{ url := url,
             query := [("size", toString size), ("before", oldest.created)],
             rel := "next" }] := by
  rw [getLinkHeaderRels_cursor]
  simp [hlen, hlast]

/-- Cursor branch, full page but no last item (only reachable with `size = 0`
and empty `items`): the JS `TypeError`. -/
lemma cursor_rels_full_error (url before : String) (size : Nat) (pg : Option Nat)
    (items : List Item) (count : Nat)
    (hlen : items.length = size) (hlast : items.getLast? = none) :
    getLinkHeaderRels url { size := size, page := pg, before := some before } items count =
      .error .typeError := by
  rw [getLinkHeaderRels_cursor]
  simp [hlen, hlast]

-- sanity examples (spec §8)
example : getLinkHeaderRels "/u" { size := 2, page := some 1 } [] 5 =
    .ok [offsetNextRel "/u" 2 1, offsetLastRel "/u" 2 3, offsetFirstRel "/u" 2] := rfl

example :
    getLinkHeaderRels "/u" { size := 3, before := some "B" }
      [⟨"T3"⟩, ⟨"T2"⟩, ⟨"T1"⟩] 0 =
    .ok [{ url := "/u", query := [("size", "3"), ("before", "T1")], rel := "next" }] := rfl

example : getLinkHeaderRels "/u" { size := 3, before := some "B" } [⟨"T3"⟩, ⟨"T2"⟩] 0 = .ok [] := rfl

example : getLinkHeader "/u" { size := 2, page := some 2 } [] 5 =
    .ok "</u?size=2&page=3>; rel=\"next\", </u?size=2&page=3>; rel=\"last\", </u?size=2&page=1>; rel=\"first\", </u?size=2&page=1>; rel=\"previous\"" := by
  rfl

/-- C1: for every offset-mode page request (with `page` and `size` set) and
every count, `getLinkHeader` computes `totalPages = ceil(count / size)` (here:
`offsetPages` equals the rational ceiling of `count / size`), emits a `next`
relation if and only if `page < totalPages`, and that relation's URL carries
the same `size` and `page + 1`. -/
theorem C1_offset_next_relation (url : String) (size page count : Nat)
    (items : List Item) (hsize : 0 < size) :
    ∃ rels,
      getLinkHeaderRels url { size := size, page := some page, before := none }
        items count = .ok rels ∧
      (offsetPages count size : ℤ) = ⌈(count : ℚ) / (size : ℚ)⌉ ∧
      (hasRel rels "next" ↔ page < offsetPages count size) ∧
      ∀ r ∈ rels, r.rel = "next" →
        r.url = url ∧ r.query = [("size", toString size), ("page", toString (page + 1))] := by
  refine ⟨_, getLinkHeaderRels_offset url size page items count,
    offsetPages_eq_ceil count size hsize, ?_, ?_⟩
  · rw [hasRel_iff]
    by_cases hp : page < offsetPages count size <;> by_cases hq : 1 < page <;>
      simp [hp, hq, offsetNextRel, offsetLastRel, offsetFirstRel, offsetPrevRel]
  · intro r hr hname
    rcases offset_mem url size page count items _
        (getLinkHeaderRels_offset url size page items count) r hr with
      ⟨hp, rfl⟩ | rfl | rfl | ⟨hq, rfl⟩
    · exact ⟨rfl, rfl⟩
    · simp [offsetLastRel] at hname
    · simp [offsetFirstRel] at hname
    · simp [offsetPrevRel] at hname

/-- C2: for every cursor-mode page request (with `before` set) where the
number of returned items equals the requested size, `getLinkHeader` emits a
single `next` relation whose query carries the same `size` and whose `before`
parameter equals the `created` value of the last item of the returned
sequence. -/
theorem C2_cursor_full_page_next (url before : String) (size : Nat)
    (pg : Option Nat) (items : List Item) (count : Nat)
    (hsize : 0 < size) (hlen : items.length = size) :
    ∃ oldest, items.getLast? = some oldest ∧
      getLinkHeaderRels url { size := size, page := pg, before := some before }
        items count =
        .ok [{ url := url,
               query := [("size", toString size), ("before", oldest.created)],
               rel := "next" }] := by
  cases hlast : items.getLast? with
  | none =>
    rw [List.getLast?_eq_none_iff] at hlast
    subst hlast
    simp at hlen
    omega
  | some oldest =>
    exact ⟨oldest, rfl, cursor_rels_full url before size pg items count oldest hlen hlast⟩

/-- C3: for every offset-mode page request, `getLinkHeader` always emits a
`last` relation with `page = totalPages` and a `first` relation with
`page = 1`; in particular, when `count = 0`, `totalPages = 0` and the `last`
relation is still emitted with `page = 0`. -/
theorem C3_offset_last_first_always (url : String) (size page count : Nat)
    (items : List Item) (hsize : 0 < size) :
    ∃ rels,
      getLinkHeaderRels url { size := size, page := some page, before := none }
        items count = .ok rels ∧
      offsetLastRel url size (offsetPages count size) ∈ rels ∧
      offsetFirstRel url size ∈ rels ∧
      (count = 0 → offsetPages count size = 0 ∧ offsetLastRel url size 0 ∈ rels) := by
  refine ⟨_, getLinkHeaderRels_offset url size page items count, by simp, by simp, ?_⟩
  intro h0
  subst h0
  have hp : offsetPages 0 size = 0 := by
    unfold offsetPages
    apply Nat.div_eq_of_lt
    omega
  rw [hp]
  exact ⟨rfl, by simp⟩

/-- C4: for every cursor-mode page request where the number of returned items
is strictly less than the requested size, `getLinkHeader` emits no `next`
relation (the relation set — and hence the header string — is empty); and in
cursor mode it never emits `previous`, `first` or `last` relations. -/
theorem C4_cursor_short_page_empty (url before : String) (size : Nat)
    (pg : Option Nat) (items : List Item) (count : Nat)
    (hlt : items.length < size) :
    getLinkHeaderRels url { size := size, page := pg, before := some before }
      items count = .ok [] ∧
    getLinkHeader url { size := size, page := pg, before := some before }
      items count = .ok "" ∧
    ∀ items2 rels,
      getLinkHeaderRels url { size := size, page := pg, before := some before }
        items2 count = .ok rels →
      ∀ r ∈ rels, r.rel = "next" := by
  have hne : items.length ≠ size := by omega
  refine ⟨cursor_rels_short url before size pg items count hne, ?_, ?_⟩
  · unfold getLinkHeader
    rw [cursor_rels_short url before size pg items count hne]
    rfl
  · intro items2 rels h r hr
    by_cases hl : items2.length = size
    · cases hlast : items2.getLast? with
      | none =>
        rw [cursor_rels_full_error url before size pg items2 count hl hlast] at h
        cases h
      | some oldest =>
        rw [cursor_rels_full url before size pg items2 count oldest hl hlast] at h
        injection h with h
        subst h
        simp at hr
        subst hr
        rfl
    · rw [cursor_rels_short url before size pg items2 count hl] at h
      injection h with h
      subst h
      cases hr

/-- C5: for every offset-mode page request where `page` equals `totalPages`,
`getLinkHeader` emits no `next` relation; and a `previous` relation is emitted
if and only if `page > 1`, carrying the same `size` and `page - 1`. -/
theorem C5_offset_last_page_previous (url : String) (size page count : Nat)
    (items : List Item) :
    ∃ rels,
      getLinkHeaderRels url { size := size, page := some page, before := none }
        items count = .ok rels ∧
      (page = offsetPages count size → ¬ hasRel rels "next") ∧
      (hasRel rels "previous" ↔ 1 < page) ∧
      ∀ r ∈ rels, r.rel = "previous" →
        r.url = url ∧ r.query = [("size", toString size), ("page", toString (page - 1))] := by
  refine ⟨_, getLinkHeaderRels_offset url size page items count, ?_, ?_, ?_⟩
  · intro hpage hnext
    simp only [hasRel] at hnext
    obtain ⟨r, hr, hname⟩ := hnext
    rcases offset_mem url size page count items _
        (getLinkHeaderRels_offset url size page items count) r hr with
      ⟨hp, rfl⟩ | rfl | rfl | ⟨hq, rfl⟩
    · omega
    · simp [offsetLastRel] at hname
    · simp [offsetFirstRel] at hname
    · simp [offsetPrevRel] at hname
  · rw [hasRel_iff]
    by_cases hp : page < offsetPages count size <;> by_cases hq : 1 < page <;>
      simp [hp, hq, offsetNextRel, offsetLastRel, offsetFirstRel, offsetPrevRel]
  · intro r hr hname
    rcases offset_mem url size page count items _
        (getLinkHeaderRels_offset url size page items count) r hr with
      ⟨hp, rfl⟩ | rfl | rfl | ⟨hq, rfl⟩
    · simp [offsetNextRel] at hname
    · simp [offsetLastRel] at hname
    · simp [offsetFirstRel] at hname
    · exact ⟨rfl, rfl⟩

/-- C7: for every input whose page request contains neither a `before` nor a
`page` discriminant, `getLinkHeader` fails with the unknown-page-request-type
error (the internal invariant violation), never a normal result. -/
theorem C7_no_discriminant_error (url : String) (size : Nat) (items : List Item)
    (count : Nat) :
    getLinkHeader url { size := size, page := none, before := none } items count =
      .error .unknownPageRequestType := rfl

/-- C9: for every offset-mode page request, the relations in the Link header
string appear in the fixed order `next` (when present), `last`, `first`,
`previous` (when present), joined by a comma and a space. -/
theorem C9_offset_relation_order (url : String) (size page count : Nat)
    (items : List Item) :
    ∃ rels,
      getLinkHeaderRels url { size := size, page := some page, before := none }
        items count = .ok rels ∧
      rels.map Rel.rel =
        (if page < offsetPages count size then ["next"] else []) ++ ["last", "first"] ++
          (if 1 < page then ["previous"] else []) ∧
      getLinkHeader url { size := size, page := some page, before := none }
        items count = .ok (String.intercalate ", " (rels.map renderRel)) := by
  refine ⟨_, getLinkHeaderRels_offset url size page items count, ?_, ?_⟩
  · by_cases hp : page < offsetPages count size <;> by_cases hq : 1 < page <;>
      simp [hp, hq, offsetNextRel, offsetLastRel, offsetFirstRel, offsetPrevRel]
  · unfold getLinkHeader
    rw [getLinkHeaderRels_offset]
    rfl

/-- Witness for C1: `size = 2`, `page = 1`, `count = 5` gives 3 total pages
and a `next` relation. -/
theorem C1_offset_next_relation_witness :
    0 < 2 ∧
    ∃ rels,
      getLinkHeaderRels "/user/uploads" { size := 2, page := some 1, before := none }
        [] 5 = .ok rels ∧
      hasRel rels "next" := by
  refine ⟨by decide, ?_⟩
  obtain ⟨rels, h1, h2, h3, h4⟩ := C1_offset_next_relation "/user/uploads" 2 1 5 [] (by decide)
  exact ⟨rels, h1, h3.mpr (by decide)⟩

/-- Witness for C2: a full cursor page of 2 items yields a `next` relation
keyed on the last item. -/
theorem C2_cursor_full_page_next_witness :
    0 < 2 ∧ ([(⟨"T2"⟩ : Item), ⟨"T1"⟩]).length = 2 ∧
    ∃ oldest, ([(⟨"T2"⟩ : Item), ⟨"T1"⟩]).getLast? = some oldest ∧
      getLinkHeaderRels "/user/uploads" { size := 2, page := none, before := some "B" }
        [⟨"T2"⟩, ⟨"T1"⟩] 0 =
        .ok [{ url := "/user/uploads",
               query := [("size", toString 2), ("before", oldest.created)],
               rel := "next" }] :=
  ⟨by decide, by decide,
   C2_cursor_full_page_next "/user/uploads" "B" 2 none [⟨"T2"⟩, ⟨"T1"⟩] 0
     (by decide) (by decide)⟩

/-- Witness for C3: `count = 0` still yields `last` (with page 0) and
`first`. -/
theorem C3_offset_last_first_always_witness :
    0 < 2 ∧
    ∃ rels,
      getLinkHeaderRels "/user/uploads" { size := 2, page := some 1, before := none }
        [] 0 = .ok rels ∧
      offsetPages 0 2 = 0 ∧ offsetLastRel "/user/uploads" 2 0 ∈ rels ∧
      offsetFirstRel "/user/uploads" 2 ∈ rels := by
  refine ⟨by decide, ?_⟩
  obtain ⟨rels, h1, h2, h3, h4⟩ := C3_offset_last_first_always "/user/uploads" 2 1 0 [] (by decide)
  obtain ⟨h5, h6⟩ := h4 rfl
  exact ⟨rels, h1, h5, h6, h3⟩

/-- Witness for C4: a short cursor page (2 items for size 3) produces an empty
relation set and an empty header string. -/
theorem C4_cursor_short_page_empty_witness :
    ([(⟨"T2"⟩ : Item), ⟨"T1"⟩]).length < 3 ∧
    (getLinkHeaderRels "/user/uploads" { size := 3, page := none, before := some "B" }
        [⟨"T2"⟩, ⟨"T1"⟩] 0 = .ok [] ∧
      getLinkHeader "/user/uploads" { size := 3, page := none, before := some "B" }
        [⟨"T2"⟩, ⟨"T1"⟩] 0 = .ok "" ∧
      ∀ items2 rels,
        getLinkHeaderRels "/user/uploads" { size := 3, page := none, before := some "B" }
          items2 0 = .ok rels →
        ∀ r ∈ rels, r.rel = "next") :=
  ⟨by decide,
   C4_cursor_short_page_empty "/user/uploads" "B" 3 none [⟨"T2"⟩, ⟨"T1"⟩] 0 (by decide)⟩

/-- Witness for C5: `size = 2`, `page = 3`, `count = 5` is the last page — no
`next` relation, and a `previous` relation is present. -/
theorem C5_offset_last_page_previous_witness :
    ∃ rels,
      getLinkHeaderRels "/user/uploads" { size := 2, page := some 3, before := none }
        [] 5 = .ok rels ∧
      ¬ hasRel rels "next" ∧ hasRel rels "previous" := by
  obtain ⟨rels, h1, h2, h3, h4⟩ := C5_offset_last_page_previous "/user/uploads" 2 3 5 []
  exact ⟨rels, h1, h2 (by decide), h3.mpr (by decide)⟩

/-- Success shape of `userUploadsGet` given the Link header built for the
returned data. -/
lemma userUploadsGet_ok (url : String) (pr : PageRequest) (data : ListUploadsResult)
    (link : String)
    (hg : getLinkHeader url pr data.uploads (data.count.getD 0) = .ok link) :
    userUploadsGet url pr (.ok data) =
      .ok { body := data.uploads
            countHeader := data.count
            sizeHeader := some pr.size
            pageHeader := pr.page
            linkHeader := if link ≠ "" then some link else none } := by
  simp only [userUploadsGet]
  rw [hg]

/-- A `getLinkHeader` exception propagates out of `userUploadsGet`. -/
lemma userUploadsGet_jsError (url : String) (pr : PageRequest)
    (data : ListUploadsResult) (e : JsError)
    (hg : getLinkHeader url pr data.uploads (data.count.getD 0) = .error e) :
    userUploadsGet url pr (.ok data) = .error (.jsError e) := by
  simp only [userUploadsGet]
  rw [hg]

/-- C6: in the response assembled by `userUploadsGet`, the `Count` header
equals the count returned by the data layer; in pure cursor mode, when the
data layer did not compute a count, the `Count` header is omitted from the
response. -/
theorem C6_count_header (url : String) (pr : PageRequest) (data : ListUploadsResult)
    (resp : UploadsResponse)
    (h : userUploadsGet url pr (.ok data) = .ok resp) :
    resp.countHeader = data.count ∧ (data.count = none → resp.countHeader = none) := by
  cases hg : getLinkHeader url pr data.uploads (data.count.getD 0) with
  | error e =>
    rw [userUploadsGet_jsError url pr data e hg] at h
    cases h
  | ok link =>
    rw [userUploadsGet_ok url pr data link hg] at h
    injection h with h
    subst h
    exact ⟨rfl, fun hc => hc⟩

/-- Witness for C6: a concrete pure-cursor request whose count was not
computed; the `Count` header is absent. -/
theorem C6_count_header_witness :
    userUploadsGet "/user/uploads" { size := 10, before := some "2021-01-01" }
        (.ok { uploads := [], count := none }) =
      .ok { body := [], countHeader := none, sizeHeader := some 10,
            pageHeader := none, linkHeader := none } ∧
    (UploadsResponse.mk [] none (some 10) none none).countHeader = none :=
  ⟨rfl,
   (C6_count_header "/user/uploads" { size := 10, before := some "2021-01-01" }
      { uploads := [], count := none }
      { body := [], countHeader := none, sizeHeader := some 10,
        pageHeader := none, linkHeader := none } rfl).1⟩

/-- C8: a data-layer listing failure with code `RANGE_NOT_SATISFIABLE_ERROR_DB`
is translated by `userUploadsGet` — and likewise `userPinsGet` — into the
distinct `RangeNotSatisfiableError` (HTTP 416-equivalent) rather than a page;
every other error is re-raised unchanged. -/
theorem C8_range_error_translation (urlU urlP : String) (prU prP : PageRequest)
    (err : DbError) :
    (err.code = "RANGE_NOT_SATISFIABLE_ERROR_DB" →
      userUploadsGet urlU prU (.error err) = .error .rangeNotSatisfiable ∧
      userPinsGet urlP prP (.error err) = .error .rangeNotSatisfiable) ∧
    (err.code ≠ "RANGE_NOT_SATISFIABLE_ERROR_DB" →
      userUploadsGet urlU prU (.error err) = .error (.dbError err) ∧
      userPinsGet urlP prP (.error err) = .error (.dbError err)) := by
  constructor
  · intro hc
    constructor <;> simp [userUploadsGet, userPinsGet, hc]
  · intro hc
    constructor <;> simp [userUploadsGet, userPinsGet, hc]

/-- Witness for C8: the dedicated code is translated, a different code is
re-raised unchanged. -/
theorem C8_range_error_translation_witness :
    userUploadsGet "/user/uploads" { size := 10, page := some 1 }
        (.error { code := "RANGE_NOT_SATISFIABLE_ERROR_DB" }) =
      .error .rangeNotSatisfiable ∧
    userPinsGet "/user/pins" { size := 10, page := some 1 }
        (.error { code := "SOME_OTHER_ERROR" }) =
      .error (.dbError { code := "SOME_OTHER_ERROR" }) :=
  ⟨((C8_range_error_translation "/user/uploads" "/user/pins"
      { size := 10, page := some 1 } { size := 10, page := some 1 }
      { code := "RANGE_NOT_SATISFIABLE_ERROR_DB" }).1 rfl).1,
   ((C8_range_error_translation "/user/uploads" "/user/pins"
      { size := 10, page := some 1 } { size := 10, page := some 1 }
      { code := "SOME_OTHER_ERROR" }).2 (by decide)).2⟩

/-- C10: `userUploadsGet` attaches a Link header to the response if and only
if the relation string built by `getLinkHeader` is non-empty; consequently a
cursor-mode request whose returned items number fewer than the requested size
carries no Link header at all. -/
theorem C10_link_header_attached_iff (url : String) (pr : PageRequest)
    (data : ListUploadsResult) (resp : UploadsResponse)
    (h : userUploadsGet url pr (.ok data) = .ok resp) :
    (∀ link, getLinkHeader url pr data.uploads (data.count.getD 0) = .ok link →
      resp.linkHeader = if link ≠ "" then some link else none) ∧
    (pr.before.isSome → data.uploads.length < pr.size → resp.linkHeader = none) := by
  constructor
  · intro link hg
    rw [userUploadsGet_ok url pr data link hg] at h
    injection h with h
    subst h
    rfl
  · intro hb hlt
    obtain ⟨psize, ppage, pbefore⟩ := pr
    obtain ⟨b, rfl⟩ := Option.isSome_iff_exists.mp hb
    have hne : data.uploads.length ≠ psize := Nat.ne_of_lt hlt
    have hg : getLinkHeader url { size := psize, page := ppage, before := some b }
        data.uploads (data.count.getD 0) = .ok "" := by
      unfold getLinkHeader
      rw [cursor_rels_short url b psize ppage data.uploads (data.count.getD 0) hne]
      rfl
    rw [userUploadsGet_ok url { size := psize, page := ppage, before := some b }
      data "" hg] at h
    injection h with h
    subst h
    simp

/-- Witness for C10: a concrete cursor request returning fewer items than the
requested size; no Link header is attached. -/
theorem C10_link_header_attached_iff_witness :
    userUploadsGet "/user/uploads" { size := 3, before := some "2021-01-01" }
        (.ok { uploads := [⟨"T2"⟩, ⟨"T1"⟩], count := none }) =
      .ok { body := [⟨"T2"⟩, ⟨"T1"⟩], countHeader := none, sizeHeader := some 3,
            pageHeader := none, linkHeader := none } ∧
    (Option.some "2021-01-01").isSome = true ∧
    ([(⟨"T2"⟩ : Item), ⟨"T1"⟩]).length < 3 ∧
    (UploadsResponse.mk [⟨"T2"⟩, ⟨"T1"⟩] none (some 3) none none).linkHeader = none :=
  ⟨rfl, rfl, by decide,
   (C10_link_header_attached_iff "/user/uploads" { size := 3, before := some "2021-01-01" }
      { uploads := [⟨"T2"⟩, ⟨"T1"⟩], count := none }
      { body := [⟨"T2"⟩, ⟨"T1"⟩], countHeader := none, sizeHeader := some 3,
        pageHeader := none, linkHeader := none } rfl).2 rfl (by decide)⟩

end Web3Storage
